import Mathlib

/-!
LED indicator controller of the de60_hs_minila board

Shallow embedding of `app/boards/arm/de60_hs_minila/leds_testing.c`.

The C file keeps three pieces of module state (`ble_adv_timer`,
`ble_adv_led_on`, `ble_adv_led_index`) and writes a GPIO LED device.  Here the
LED device is a function from LED index to its on/off level, and every handler
is a function on an explicit `State`.

Conventions of the embedding:

* C `int` values (`ble_adv_led_index`, `profile_index`, `button_id`, return
  codes) are `Int`.
* The devicetree constants `DT_NODE_CHILD_IDX(DT_ALIAS(led_*))` and the header
  constants `HID_USAGE_LED_CAPS_LOCK`, `ZMK_BUTTON_ID_OUT_TOG`,
  `ZMK_BUTTON_ID_OUT_BLE` are not defined in the C file; they are the fields
  of `Board`.
* Values the C code obtains from the rest of the firmware
  (`zmk_hid_indicators_get_current_profile()`,
  `zmk_ble_active_profile_is_connected()`, `device_is_ready(led_dev)`, the
  event payloads) are arguments of the handlers.
* The calls `led_on(ble_adv_led_index)` and `led_off(LED_USB_PIN)` are written
  in the C file without the device argument; they are read as writes to
  `led_dev`, like every other LED call of the file.
* `set_led_for_endpoint` takes its `struct output_status_state` by value and
  reads it with `state->`; the reads are taken as field reads of `state`.
-/

namespace LedsTesting

/-! ## Constants supplied by devicetree and headers -/

/-- Constants that the C file takes from devicetree and from ZMK headers. -/
structure Board where
  /-- Index `DT_NODE_CHILD_IDX(DT_ALIAS(led_usb))`. -/
  led_usb : Nat
  /-- Index `DT_NODE_CHILD_IDX(DT_ALIAS(led_ble_0))`. -/
  led_ble_0 : Nat
  /-- Index `DT_NODE_CHILD_IDX(DT_ALIAS(led_ble_1))`. -/
  led_ble_1 : Nat
  /-- Index `DT_NODE_CHILD_IDX(DT_ALIAS(led_ble_2))`. -/
  led_ble_2 : Nat
  /-- Index `DT_NODE_CHILD_IDX(DT_ALIAS(led_caps))`. -/
  led_caps : Nat
  /-- Usage id `HID_USAGE_LED_CAPS_LOCK`. -/
  HID_USAGE_LED_CAPS_LOCK : Nat
  /-- Button id `ZMK_BUTTON_ID_OUT_TOG`. -/
  ZMK_BUTTON_ID_OUT_TOG : Int
  /-- Button id `ZMK_BUTTON_ID_OUT_BLE`. -/
  ZMK_BUTTON_ID_OUT_BLE : Int

/-- The five LED aliases name five different children of the `gpio-leds`
node. -/
def Board.distinct (b : Board) : Prop :=
  b.led_usb ≠ b.led_ble_0 ∧ b.led_usb ≠ b.led_ble_1 ∧ b.led_usb ≠ b.led_ble_2 ∧
  b.led_usb ≠ b.led_caps ∧
  b.led_ble_0 ≠ b.led_ble_1 ∧ b.led_ble_0 ≠ b.led_ble_2 ∧ b.led_ble_0 ≠ b.led_caps ∧
  b.led_ble_1 ≠ b.led_ble_2 ∧ b.led_ble_1 ≠ b.led_caps ∧
  b.led_ble_2 ≠ b.led_caps

instance (b : Board) : Decidable b.distinct := by
  unfold Board.distinct
  infer_instance

/-- The shift `1 << (HID_USAGE_LED_CAPS_LOCK - 1)` is defined on a 32-bit
`int`: the usage id is between 1 and 31. -/
def Board.capsUsageOk (b : Board) : Prop :=
  1 ≤ b.HID_USAGE_LED_CAPS_LOCK ∧ b.HID_USAGE_LED_CAPS_LOCK ≤ 31

instance (b : Board) : Decidable b.capsUsageOk := by
  unfold Board.capsUsageOk
  infer_instance

/-- LED index of BLE profile `p` (the `switch` tables of the C file map
profile 0, 1, 2 to `led_ble_0`, `led_ble_1`, `led_ble_2`). -/
def Board.led_ble (b : Board) (p : Int) : Nat :=
  if p = 0 then b.led_ble_0 else if p = 1 then b.led_ble_1 else b.led_ble_2

/-- A sample board: the LEDs are children 0..4 of the `gpio-leds` node, Caps
Lock is HID LED usage 2, and the two output buttons have ids 3 and 4. -/
def sampleBoard : Board :=
  { led_usb := 0, led_ble_0 := 1, led_ble_1 := 2, led_ble_2 := 3, led_caps := 4,
    HID_USAGE_LED_CAPS_LOCK := 2, ZMK_BUTTON_ID_OUT_TOG := 3, ZMK_BUTTON_ID_OUT_BLE := 4 }

/-! ## Event payloads -/

/-- Type `enum zmk_transport`, the two values the C file switches on. -/
inductive zmk_transport where
  | ZMK_TRANSPORT_USB
  | ZMK_TRANSPORT_BLE
  deriving DecidableEq, Repr

/-- Type `struct zmk_endpoint_instance`: transport and `ble.profile_index`. -/
structure zmk_endpoint_instance where
  transport : zmk_transport
  ble_profile_index : Int
  deriving DecidableEq, Repr

/-- Type `struct output_status_state` of the C file. -/
structure output_status_state where
  selected_endpoint : zmk_endpoint_instance
  active_profile_index : Int
  active_profile_connected : Bool
  active_profile_bonded : Bool
  deriving DecidableEq, Repr

/-- Action of a button event; the C file only tests for `ZMK_BUTTON_PRESS`. -/
inductive zmk_button_action where
  | ZMK_BUTTON_PRESS
  | ZMK_BUTTON_RELEASE
  deriving DecidableEq, Repr

/-- Type `struct zmk_button_event`: `action` and `params.button_id`. -/
structure zmk_button_event where
  action : zmk_button_action
  button_id : Int
  deriving DecidableEq, Repr

/-! ## Module state -/

/-- How a running `k_timer` is armed: milliseconds to the next expiry and the
period in milliseconds (0 for a one-shot timer). -/
structure k_timer_arming where
  duration : Nat
  period : Nat
  deriving DecidableEq, Repr

/-- The LED device together with the three static variables of the C file. -/
structure State where
  /-- Level of every LED of `led_dev`, by LED index. -/
  leds : Nat → Bool
  /-- Variable `static bool ble_adv_led_on`. -/
  ble_adv_led_on : Bool
  /-- Variable `static int ble_adv_led_index`. -/
  ble_adv_led_index : Int
  /-- Variable `static struct k_timer ble_adv_timer`: `none` when stopped. -/
  ble_adv_timer : Option k_timer_arming

/-- State after boot: all LEDs off, `ble_adv_led_on = false`,
`ble_adv_led_index = -1`, timer initialised and not started. -/
def initState : State :=
  { leds := fun _ => false, ble_adv_led_on := false, ble_adv_led_index := -1,
    ble_adv_timer := none }

/-! ## Zephyr primitives used by the file -/

/-- Write level `v` to LED `led` of the device.  The driver takes the index as
`uint32_t`; a negative `int` becomes an index beyond every LED of the node and
the driver rejects it without writing. -/
def led_write (leds : Nat → Bool) (led : Int) (v : Bool) : Nat → Bool :=
  if 0 ≤ led then fun i => if i = led.toNat then v else leds i else leds

/-- Zephyr `led_on(led_dev, led)`. -/
def led_on (s : State) (led : Int) : State :=
  { s with leds := led_write s.leds led true }

/-- Zephyr `led_off(led_dev, led)`. -/
def led_off (s : State) (led : Int) : State :=
  { s with leds := led_write s.leds led false }

/-- Zephyr `k_timer_start(&ble_adv_timer, K_MSEC(duration), K_MSEC(period))`:
(re)arms the timer, replacing any arming in effect. -/
def k_timer_start (s : State) (duration period : Nat) : State :=
  { s with ble_adv_timer := some { duration := duration, period := period } }

/-- Zephyr `k_timer_stop(&ble_adv_timer)`. -/
def k_timer_stop (s : State) : State :=
  { s with ble_adv_timer := none }

/-! ## The functions of `leds_testing.c` -/

/-- Timer callback (`ble_adv_timer_handler`, lines 50-59). -/
def ble_adv_timer_handler (s : State) : State :=
  if s.ble_adv_led_index ≥ 0 then
    let s1 := if s.ble_adv_led_on then led_off s s.ble_adv_led_index
              else led_on s s.ble_adv_led_index
    { s1 with ble_adv_led_on := !s1.ble_adv_led_on }
  else s

/-- The mask `1 << (HID_USAGE_LED_CAPS_LOCK - 1)` as an `unsigned int`. -/
def capsBit (b : Board) : Nat :=
  (1 <<< (b.HID_USAGE_LED_CAPS_LOCK - 1)) % 2 ^ 32

/-- Caps Lock indicator (`update_caps_lock_led`, lines 62-73); `flags` is the
value of `zmk_hid_indicators_get_current_profile()`. -/
def update_caps_lock_led (b : Board) (flags : Nat) (s : State) : Int × State :=
  if flags &&& capsBit b ≠ 0 then (0, led_on s b.led_caps)
  else (0, led_off s b.led_caps)

/-- Output selection indicators (`set_led_for_endpoint`, lines 78-133);
`is_connected` is the value of `zmk_ble_active_profile_is_connected()`. -/
def set_led_for_endpoint (b : Board) (state : output_status_state)
    (is_connected : Bool) (s : State) : State :=
  let s := led_off s b.led_usb
  let s := led_off s b.led_ble_0
  let s := led_off s b.led_ble_1
  let s := led_off s b.led_ble_2
  match state.selected_endpoint.transport with
  | .ZMK_TRANSPORT_USB => led_on s b.led_usb
  | .ZMK_TRANSPORT_BLE =>
    if state.active_profile_bonded then
      if state.active_profile_connected then
        if state.selected_endpoint.ble_profile_index = 0 then led_on s b.led_ble_0
        else if state.selected_endpoint.ble_profile_index = 1 then led_on s b.led_ble_1
        else if state.selected_endpoint.ble_profile_index = 2 then led_on s b.led_ble_2
        else s
      else s
    else
      let s :=
        if state.selected_endpoint.ble_profile_index = 0 then
          { s with ble_adv_led_index := b.led_ble_0 }
        else if state.selected_endpoint.ble_profile_index = 1 then
          { s with ble_adv_led_index := b.led_ble_1 }
        else if state.selected_endpoint.ble_profile_index = 2 then
          { s with ble_adv_led_index := b.led_ble_2 }
        else s
      if !is_connected then
        k_timer_start (k_timer_stop s) 500 500
      else
        k_timer_start (led_on s s.ble_adv_led_index) 5000 0

/-- Listener of `zmk_endpoint_changed` (lines 136-140).  The C code hands the
result of `zmk_endpoints_selected()` to `set_led_for_endpoint`; the status
read by the callee is the argument `state`. -/
def endpoint_changed_listener (b : Board) (state : output_status_state)
    (is_connected : Bool) (s : State) : Int × State :=
  (0, set_led_for_endpoint b state is_connected s)

/-- Listener of `zmk_hid_indicators_changed` (lines 143-146). -/
def led_keylock_listener_cb (b : Board) (flags : Nat) (s : State) : Int × State :=
  (0, (update_caps_lock_led b flags s).2)

/-- Listener of the BT_SEL button (`bt_sel_listener`, lines 149-173). -/
def bt_sel_listener (b : Board) (event : zmk_button_event) (s : State) : Int × State :=
  if event.action = .ZMK_BUTTON_PRESS then
    let profile := event.button_id
    if profile ≥ 0 ∧ profile ≤ 2 then
      if profile = 0 then
        let s := { s with ble_adv_led_index := b.led_ble_0 }
        (0, k_timer_start (led_on s s.ble_adv_led_index) 5000 0)
      else if profile = 1 then
        let s := { s with ble_adv_led_index := b.led_ble_1 }
        (0, k_timer_start (led_on s s.ble_adv_led_index) 5000 0)
      else if profile = 2 then
        let s := { s with ble_adv_led_index := b.led_ble_2 }
        (0, k_timer_start (led_on s s.ble_adv_led_index) 5000 0)
      else (0, s)
    else (0, s)
  else (0, s)

/-- Modelled from the spec: the macro `LED_USB_PIN` used by
`mode_change_listener` is not defined in the C file; the spec says this
handler turns off the USB LED, so the macro is the USB LED index. -/
def LED_USB_PIN (b : Board) : Int := b.led_usb

/-- Listener of the OUT_TOG / OUT_BLE buttons (`mode_change_listener`,
lines 176-186). -/
def mode_change_listener (b : Board) (event : zmk_button_event) (s : State) : Int × State :=
  if event.action = .ZMK_BUTTON_PRESS then
    if event.button_id = b.ZMK_BUTTON_ID_OUT_TOG ∨ event.button_id = b.ZMK_BUTTON_ID_OUT_BLE then
      (0, led_off s (LED_USB_PIN b))
    else (0, s)
  else (0, s)

/-- Error number `ENODEV` of `errno.h`. -/
def ENODEV : Int := 19

/-- LED initialisation (`leds_init`, lines 201-207); `ready` is the value of
`device_is_ready(led_dev)`. -/
def leds_init (ready : Bool) : Int :=
  if !ready then -ENODEV else 0

/-! ## Timer expiry and event sequences -/

/-- One expiry of `ble_adv_timer` as the kernel performs it: nothing happens
on a stopped timer; on a running timer the callback runs, and the timer stays
armed with its period, or stops if it was a one-shot. -/
def k_timer_expire (s : State) : State :=
  match s.ble_adv_timer with
  | none => s
  | some a =>
    let s1 := ble_adv_timer_handler s
    { s1 with ble_adv_timer :=
        if a.period = 0 then none else some { duration := a.period, period := a.period } }

/-- Run `n` consecutive expiries of the timer with no other event in between. -/
def expiries : Nat → State → State
  | 0, s => s
  | n + 1, s => expiries n (k_timer_expire s)

/-- The events the module reacts to. -/
inductive Event where
  | endpoint_changed (state : output_status_state) (is_connected : Bool)
  | hid_indicators_changed (flags : Nat)
  | bt_sel_button (event : zmk_button_event)
  | mode_change_button (event : zmk_button_event)
  | timer_expiry

/-- Handle one event. -/
def step (b : Board) (s : State) : Event → State
  | .endpoint_changed state c => (endpoint_changed_listener b state c s).2
  | .hid_indicators_changed flags => (led_keylock_listener_cb b flags s).2
  | .bt_sel_button event => (bt_sel_listener b event s).2
  | .mode_change_button event => (mode_change_listener b event s).2
  | .timer_expiry => k_timer_expire s

/-- Handle a sequence of events, oldest first. -/
def run (b : Board) (s : State) (evs : List Event) : State :=
  evs.foldl (step b) s

/-- States the module can be in: those produced from `initState` by some
sequence of events. -/
def Reachable (b : Board) (s : State) : Prop :=
  ∃ evs : List Event, run b initState evs = s

/-- A BLE selection of profile `p` with the given bonded and connected
status (`active_profile_index` is not read by the C code). -/
def bleSelection (p : Int) (bonded connected : Bool) : output_status_state :=
  { selected_endpoint := { transport := .ZMK_TRANSPORT_BLE, ble_profile_index := p },
    active_profile_index := p,
    active_profile_connected := connected,
    active_profile_bonded := bonded }

/-- A USB selection; the remaining fields are arbitrary. -/
def usbSelection (p : Int) (bonded connected : Bool) : output_status_state :=
  { selected_endpoint := { transport := .ZMK_TRANSPORT_USB, ble_profile_index := p },
    active_profile_index := p,
    active_profile_connected := connected,
    active_profile_bonded := bonded }

/-- A press of the button with id `p`. -/
def press (p : Int) : zmk_button_event :=
  { action := .ZMK_BUTTON_PRESS, button_id := p }

/-- A state in which `ble_adv_led_on` is set: profile 0 started blinking and
the timer expired once. -/
def blinkingOnce : State :=
  run sampleBoard initState
    [Event.endpoint_changed (bleSelection 0 false false) false, Event.timer_expiry]

/-- The blink target is unset (-1) or is the LED of one of the three BLE
profiles. -/
def targetsBle (b : Board) (s : State) : Prop :=
  s.ble_adv_led_index = -1 ∨ s.ble_adv_led_index = (b.led_ble_0 : Int) ∨
  s.ble_adv_led_index = (b.led_ble_1 : Int) ∨ s.ble_adv_led_index = (b.led_ble_2 : Int)

/-- Flags carried by the last lock-indicators-changed event of a sequence, if
there is one. -/
def lastIndicatorFlags : List Event → Option Nat
  | [] => none
  | e :: rest =>
    match lastIndicatorFlags rest with
    | some f => some f
    | none =>
      match e with
      | .hid_indicators_changed f => some f
      | _ => none

/-- A state in which profile 0 is blinking: the repeating timer is armed and
no expiry has happened yet. -/
def blinkArmed : State :=
  run sampleBoard initState [Event.endpoint_changed (bleSelection 0 false false) false]

/-- A state in which the USB LED is on: the USB endpoint was selected after
boot. -/
def usbSelected : State :=
  run sampleBoard initState [Event.endpoint_changed (usbSelection 0 false false) false]

/-! ## Basic facts about the primitives -/

theorem led_write_nat (leds : Nat → Bool) (i : Nat) (v : Bool) (j : Nat) :
    led_write leds (i : Int) v j = if j = i then v else leds j := by
  simp [led_write]

theorem led_write_same (leds : Nat → Bool) (i : Nat) (v : Bool) :
    led_write leds (i : Int) v i = v := by
  simp [led_write]

theorem led_write_other (leds : Nat → Bool) (i : Int) (v : Bool) (j : Nat)
    (h : (j : Int) ≠ i) : led_write leds i v j = leds j := by
  unfold led_write
  split
  · have hj : j ≠ i.toNat := by omega
    simp [hj]
  · rfl

theorem profile_cases (p : Int) (h0 : 0 ≤ p) (h2 : p ≤ 2) : p = 0 ∨ p = 1 ∨ p = 2 := by
  omega

/-! ## Endpoint-changed handler -/

/-- C1: for every prior state, handling a selection with transport USB leaves
the USB LED on and the BLE-0, BLE-1 and BLE-2 LEDs off. -/
theorem set_led_for_endpoint_usb (b : Board) (hb : b.distinct)
    (state : output_status_state) (c : Bool) (s : State)
    (ht : state.selected_endpoint.transport = .ZMK_TRANSPORT_USB) :
    (set_led_for_endpoint b state c s).leds b.led_usb = true ∧
    (set_led_for_endpoint b state c s).leds b.led_ble_0 = false ∧
    (set_led_for_endpoint b state c s).leds b.led_ble_1 = false ∧
    (set_led_for_endpoint b state c s).leds b.led_ble_2 = false := by
  obtain ⟨h01, h02, h03, -, h12, h13, -, h23, -, -⟩ := hb
  simp [set_led_for_endpoint, ht, led_on, led_off, led_write_nat, h01, h02, h03, h12, h13,
    h23, Ne.symm h01, Ne.symm h02, Ne.symm h03, Ne.symm h12, Ne.symm h13, Ne.symm h23]

theorem set_led_for_endpoint_usb_witness :
    (set_led_for_endpoint sampleBoard (usbSelection 0 false false) false initState).leds
        sampleBoard.led_usb = true ∧
    (set_led_for_endpoint sampleBoard (usbSelection 0 false false) false initState).leds
        sampleBoard.led_ble_0 = false ∧
    (set_led_for_endpoint sampleBoard (usbSelection 0 false false) false initState).leds
        sampleBoard.led_ble_1 = false ∧
    (set_led_for_endpoint sampleBoard (usbSelection 0 false false) false initState).leds
        sampleBoard.led_ble_2 = false :=
  set_led_for_endpoint_usb sampleBoard (by decide) (usbSelection 0 false false) false
    initState rfl

/-- C2 (as stated) fails: on the sample board, after an endpoint-changed event
for the unbonded, not connected profile 0 has armed the repeating 500 ms
timer, an endpoint-changed event for the bonded and connected profile 0
leaves that timer armed. -/
theorem set_led_for_endpoint_bonded_connected_timer_still_armed :
    (set_led_for_endpoint sampleBoard (bleSelection 0 true true) true
        (run sampleBoard initState
          [Event.endpoint_changed (bleSelection 0 false false) false])).ble_adv_timer
      = some { duration := 500, period := 500 } ∧
    (set_led_for_endpoint sampleBoard (bleSelection 0 true true) true
        (run sampleBoard initState
          [Event.endpoint_changed (bleSelection 0 false false) false])).ble_adv_timer
      ≠ none := by
  decide

/-- C2 (amended): for every prior state and every profile index p in {0,1,2},
handling a BLE selection of profile p with bonded = true and connected = true
leaves LED[p] on, the other two BLE LEDs and the USB LED off, and the timer
arming exactly as it was before the event (the branch neither arms nor stops
the timer). -/
theorem set_led_for_endpoint_bonded_connected (b : Board) (hb : b.distinct)
    (state : output_status_state) (c : Bool) (s : State) (p : Int)
    (ht : state.selected_endpoint.transport = .ZMK_TRANSPORT_BLE)
    (hbonded : state.active_profile_bonded = true)
    (hconn : state.active_profile_connected = true)
    (hidx : state.selected_endpoint.ble_profile_index = p)
    (h0 : 0 ≤ p) (h2 : p ≤ 2) :
    (set_led_for_endpoint b state c s).leds (b.led_ble p) = true ∧
    (∀ q : Int, 0 ≤ q → q ≤ 2 → q ≠ p →
      (set_led_for_endpoint b state c s).leds (b.led_ble q) = false) ∧
    (set_led_for_endpoint b state c s).leds b.led_usb = false ∧
    (set_led_for_endpoint b state c s).ble_adv_timer = s.ble_adv_timer := by
  obtain ⟨h01, h02, h03, -, h12, h13, -, h23, -, -⟩ := hb
  refine ⟨?_, ?_, ?_, ?_⟩
  · rcases profile_cases p h0 h2 with rfl | rfl | rfl <;>
      simp [set_led_for_endpoint, ht, hbonded, hconn, hidx, Board.led_ble, led_on, led_off,
        led_write_nat]
  · intro q hq0 hq2 hqp
    rcases profile_cases p h0 h2 with rfl | rfl | rfl <;>
      rcases profile_cases q hq0 hq2 with rfl | rfl | rfl <;>
      simp_all [set_led_for_endpoint, Board.led_ble, led_on, led_off, led_write_nat,
        Ne.symm h12, Ne.symm h13, Ne.symm h23]
  · rcases profile_cases p h0 h2 with rfl | rfl | rfl <;>
      simp [set_led_for_endpoint, ht, hbonded, hconn, hidx, led_on, led_off,
        led_write_nat, h01, h02, h03]
  · rcases profile_cases p h0 h2 with rfl | rfl | rfl <;>
      simp [set_led_for_endpoint, ht, hbonded, hconn, hidx, led_on, led_off]

theorem set_led_for_endpoint_bonded_connected_witness :
    (set_led_for_endpoint sampleBoard (bleSelection 1 true true) true initState).leds
        (sampleBoard.led_ble 1) = true ∧
    (∀ q : Int, 0 ≤ q → q ≤ 2 → q ≠ 1 →
      (set_led_for_endpoint sampleBoard (bleSelection 1 true true) true initState).leds
        (sampleBoard.led_ble q) = false) ∧
    (set_led_for_endpoint sampleBoard (bleSelection 1 true true) true initState).leds
        sampleBoard.led_usb = false ∧
    (set_led_for_endpoint sampleBoard (bleSelection 1 true true) true
        initState).ble_adv_timer = initState.ble_adv_timer :=
  set_led_for_endpoint_bonded_connected sampleBoard (by decide) (bleSelection 1 true true)
    true initState 1 rfl rfl rfl rfl (by decide) (by decide)

theorem not_bonded_effect (b : Board)
    (state : output_status_state) (c : Bool) (s : State) (p : Int)
    (ht : state.selected_endpoint.transport = .ZMK_TRANSPORT_BLE)
    (hbonded : state.active_profile_bonded = false)
    (hidx : state.selected_endpoint.ble_profile_index = p)
    (h0 : 0 ≤ p) (h2 : p ≤ 2) :
    (set_led_for_endpoint b state c s).ble_adv_led_index = (b.led_ble p : Int) ∧
    (set_led_for_endpoint b state c s).ble_adv_timer
      = some (if c = true then { duration := 5000, period := 0 }
              else { duration := 500, period := 500 }) ∧
    (c = true → (set_led_for_endpoint b state c s).leds (b.led_ble p) = true) := by
  rcases profile_cases p h0 h2 with rfl | rfl | rfl <;> cases c <;>
    simp [set_led_for_endpoint, ht, hbonded, hidx, Board.led_ble, led_on, led_off,
      led_write_nat, k_timer_start, k_timer_stop]

/-- C3: for every prior state and every profile index p in {0,1,2}, handling a
BLE selection of profile p with bonded = false sets `ble_adv_led_index` to the
LED of profile p; if the active profile is not connected the timer is armed
repeating with first expiry 500 ms and period 500 ms; if it is connected,
LED[p] is on after the handler and the timer is armed as a one-shot of
5000 ms (period 0). -/
theorem set_led_for_endpoint_not_bonded (b : Board)
    (state : output_status_state) (c : Bool) (s : State) (p : Int)
    (ht : state.selected_endpoint.transport = .ZMK_TRANSPORT_BLE)
    (hbonded : state.active_profile_bonded = false)
    (hidx : state.selected_endpoint.ble_profile_index = p)
    (h0 : 0 ≤ p) (h2 : p ≤ 2) :
    (set_led_for_endpoint b state c s).ble_adv_led_index = (b.led_ble p : Int) ∧
    (c = false → (set_led_for_endpoint b state c s).ble_adv_timer
        = some { duration := 500, period := 500 }) ∧
    (c = true → (set_led_for_endpoint b state c s).leds (b.led_ble p) = true ∧
      (set_led_for_endpoint b state c s).ble_adv_timer
        = some { duration := 5000, period := 0 }) := by
  obtain ⟨hidx1, htimer, hled⟩ := not_bonded_effect b state c s p ht hbonded hidx h0 h2
  refine ⟨hidx1, ?_, ?_⟩
  · intro hc
    simpa [hc] using htimer
  · intro hc
    exact ⟨hled hc, by simpa [hc] using htimer⟩

theorem set_led_for_endpoint_not_bonded_witness :
    (set_led_for_endpoint sampleBoard (bleSelection 2 false true) true
        initState).ble_adv_led_index = (sampleBoard.led_ble 2 : Int) ∧
    (true = false → (set_led_for_endpoint sampleBoard (bleSelection 2 false true) true
        initState).ble_adv_timer = some { duration := 500, period := 500 }) ∧
    (true = true →
      (set_led_for_endpoint sampleBoard (bleSelection 2 false true) true initState).leds
        (sampleBoard.led_ble 2) = true ∧
      (set_led_for_endpoint sampleBoard (bleSelection 2 false true) true
        initState).ble_adv_timer = some { duration := 5000, period := 0 }) :=
  set_led_for_endpoint_not_bonded sampleBoard (bleSelection 2 false true) true initState 2
    rfl rfl rfl (by decide) (by decide)

/-! ## Profile-select button -/

/-- C4: for every prior state (whatever timer arming and blink target it has)
and every p in {0,1,2}, a PRESS event with button_id = p in `bt_sel_listener`
leaves LED[p] on, `ble_adv_led_index` equal to the LED of profile p, and the
timer armed as a one-shot of 5000 ms (period 0). -/
theorem bt_sel_listener_press (b : Board) (event : zmk_button_event) (s : State) (p : Int)
    (hact : event.action = .ZMK_BUTTON_PRESS) (hid : event.button_id = p)
    (h0 : 0 ≤ p) (h2 : p ≤ 2) :
    (bt_sel_listener b event s).2.leds (b.led_ble p) = true ∧
    (bt_sel_listener b event s).2.ble_adv_led_index = (b.led_ble p : Int) ∧
    (bt_sel_listener b event s).2.ble_adv_timer = some { duration := 5000, period := 0 } := by
  rcases profile_cases p h0 h2 with rfl | rfl | rfl <;>
    simp [bt_sel_listener, hact, hid, Board.led_ble, led_on, led_write_nat, k_timer_start]

theorem bt_sel_listener_press_witness :
    (bt_sel_listener sampleBoard (press 1)
        (run sampleBoard initState
          [Event.endpoint_changed (bleSelection 0 false false) false])).2.leds
        (sampleBoard.led_ble 1) = true ∧
    (bt_sel_listener sampleBoard (press 1)
        (run sampleBoard initState
          [Event.endpoint_changed (bleSelection 0 false false) false])).2.ble_adv_led_index
        = (sampleBoard.led_ble 1 : Int) ∧
    (bt_sel_listener sampleBoard (press 1)
        (run sampleBoard initState
          [Event.endpoint_changed (bleSelection 0 false false) false])).2.ble_adv_timer
        = some { duration := 5000, period := 0 } :=
  bt_sel_listener_press sampleBoard (press 1)
    (run sampleBoard initState [Event.endpoint_changed (bleSelection 0 false false) false])
    1 rfl rfl (by decide) (by decide)

/-! ## Timer expiry -/

theorem ble_adv_timer_handler_index (s : State) :
    (ble_adv_timer_handler s).ble_adv_led_index = s.ble_adv_led_index := by
  unfold ble_adv_timer_handler
  split
  · cases s.ble_adv_led_on <;> simp [led_on, led_off]
  · rfl

theorem ble_adv_timer_handler_leds_other (s : State) (j : Nat)
    (h : (j : Int) ≠ s.ble_adv_led_index) :
    (ble_adv_timer_handler s).leds j = s.leds j := by
  unfold ble_adv_timer_handler
  split
  · cases s.ble_adv_led_on <;> simp [led_on, led_off, led_write_other _ _ _ _ h]
  · rfl

theorem k_timer_expire_index (s : State) :
    (k_timer_expire s).ble_adv_led_index = s.ble_adv_led_index := by
  unfold k_timer_expire
  split
  · rfl
  · simp [ble_adv_timer_handler_index]

theorem k_timer_expire_leds_other (s : State) (j : Nat)
    (h : (j : Int) ≠ s.ble_adv_led_index) :
    (k_timer_expire s).leds j = s.leds j := by
  unfold k_timer_expire
  split
  · rfl
  · simp [ble_adv_timer_handler_leds_other s j h]

theorem expiries_index (n : Nat) (s : State) :
    (expiries n s).ble_adv_led_index = s.ble_adv_led_index := by
  induction n generalizing s with
  | zero => rfl
  | succ n ih => rw [expiries, ih, k_timer_expire_index]

theorem expiries_leds_other (n : Nat) (s : State) (j : Nat)
    (h : (j : Int) ≠ s.ble_adv_led_index) :
    (expiries n s).leds j = s.leds j := by
  induction n generalizing s with
  | zero => rfl
  | succ n ih =>
    rw [expiries, ih (k_timer_expire s) (by rw [k_timer_expire_index]; exact h),
      k_timer_expire_leds_other s j h]

/-- C5 (as stated) fails: on the sample board, from the boot state, a press of
the profile-select button 0 followed by the expiry of the one-shot timer
leaves LED[0] on and `ble_adv_led_index` still equal to the LED of profile 0,
not -1. -/
theorem one_shot_expiry_keeps_led_and_target :
    (bt_sel_listener sampleBoard (press 0) initState).2.ble_adv_timer
      = some { duration := 5000, period := 0 } ∧
    (k_timer_expire (bt_sel_listener sampleBoard (press 0) initState).2).leds
      (sampleBoard.led_ble 0) = true ∧
    (k_timer_expire (bt_sel_listener sampleBoard (press 0) initState).2).ble_adv_led_index
      = (sampleBoard.led_ble 0 : Int) ∧
    (k_timer_expire (bt_sel_listener sampleBoard (press 0) initState).2).ble_adv_led_index
      ≠ -1 := by
  decide

/-- C5 (amended): for every state and every p in {0,1,2}, after a
profile-select press for p, or a not-bonded-but-connected endpoint event for
p, followed by the single expiry of the 5000 ms one-shot timer, the timer is
stopped, `ble_adv_led_index` is still the LED of profile p (the callback never
clears it), and LED[p] is off whenever `ble_adv_led_on` was set when the
one-shot was armed. -/
theorem one_shot_expiry (b : Board) (event : zmk_button_event)
    (state : output_status_state) (s : State) (p : Int)
    (hact : event.action = .ZMK_BUTTON_PRESS) (hid : event.button_id = p)
    (ht : state.selected_endpoint.transport = .ZMK_TRANSPORT_BLE)
    (hbonded : state.active_profile_bonded = false)
    (hidx : state.selected_endpoint.ble_profile_index = p)
    (h0 : 0 ≤ p) (h2 : p ≤ 2) :
    ((k_timer_expire (bt_sel_listener b event s).2).ble_adv_timer = none ∧
     (k_timer_expire (bt_sel_listener b event s).2).ble_adv_led_index = (b.led_ble p : Int) ∧
     (s.ble_adv_led_on = true →
       (k_timer_expire (bt_sel_listener b event s).2).leds (b.led_ble p) = false)) ∧
    ((k_timer_expire (set_led_for_endpoint b state true s)).ble_adv_timer = none ∧
     (k_timer_expire (set_led_for_endpoint b state true s)).ble_adv_led_index
       = (b.led_ble p : Int) ∧
     (s.ble_adv_led_on = true →
       (k_timer_expire (set_led_for_endpoint b state true s)).leds (b.led_ble p) = false)) := by
  obtain ⟨l, f, i, t⟩ := s
  constructor
  · rcases profile_cases p h0 h2 with rfl | rfl | rfl <;> cases f <;>
      simp [bt_sel_listener, hact, hid, Board.led_ble, led_on, led_off,
        led_write_nat, k_timer_start, k_timer_expire, ble_adv_timer_handler]
  · rcases profile_cases p h0 h2 with rfl | rfl | rfl <;> cases f <;>
      simp [set_led_for_endpoint, ht, hbonded, hidx, Board.led_ble, led_on,
        led_off, led_write_nat, k_timer_start, k_timer_expire, ble_adv_timer_handler]

theorem one_shot_expiry_witness :
    ((k_timer_expire (bt_sel_listener sampleBoard (press 1) blinkingOnce).2).ble_adv_timer
        = none ∧
     (k_timer_expire (bt_sel_listener sampleBoard (press 1) blinkingOnce).2).ble_adv_led_index
        = (sampleBoard.led_ble 1 : Int) ∧
     (blinkingOnce.ble_adv_led_on = true →
       (k_timer_expire (bt_sel_listener sampleBoard (press 1) blinkingOnce).2).leds
         (sampleBoard.led_ble 1) = false)) ∧
    ((k_timer_expire (set_led_for_endpoint sampleBoard (bleSelection 1 false true) true
        blinkingOnce)).ble_adv_timer = none ∧
     (k_timer_expire (set_led_for_endpoint sampleBoard (bleSelection 1 false true) true
        blinkingOnce)).ble_adv_led_index = (sampleBoard.led_ble 1 : Int) ∧
     (blinkingOnce.ble_adv_led_on = true →
       (k_timer_expire (set_led_for_endpoint sampleBoard (bleSelection 1 false true) true
         blinkingOnce)).leds (sampleBoard.led_ble 1) = false)) :=
  one_shot_expiry sampleBoard (press 1) (bleSelection 1 false true) blinkingOnce 1
    rfl rfl rfl rfl rfl (by decide) (by decide)

/-- C6 (evaluation at the failing input): on the sample board, profile 0
starts blinking, the timer expires once, and a second endpoint-changed event
for the unbonded, not connected profile 0 arrives.  After that event LED[0] is
off and the repeating 500 ms timer is armed, but the first expiry leaves
LED[0] off and the second expiry leaves it on. -/
theorem blink_phase_inverted_after_rearm :
    blinkingOnce.ble_adv_led_on = true ∧
    (set_led_for_endpoint sampleBoard (bleSelection 0 false false) false blinkingOnce).leds
      (sampleBoard.led_ble 0) = false ∧
    (set_led_for_endpoint sampleBoard (bleSelection 0 false false) false
      blinkingOnce).ble_adv_timer = some { duration := 500, period := 500 } ∧
    (expiries 1 (set_led_for_endpoint sampleBoard (bleSelection 0 false false) false
      blinkingOnce)).leds (sampleBoard.led_ble 0) = false ∧
    (expiries 2 (set_led_for_endpoint sampleBoard (bleSelection 0 false false) false
      blinkingOnce)).leds (sampleBoard.led_ble 0) = true := by
  decide

/-- Blinking from a state whose `ble_adv_led_on` is clear: for every p in
{0,1,2}, after an endpoint-changed event for the unbonded, not connected
profile p, LED[p] is off, the first expiry leaves it on and the second leaves
it off. -/
theorem blink_symmetric_of_flag_clear (b : Board) (hb : b.distinct)
    (state : output_status_state) (s : State) (p : Int)
    (ht : state.selected_endpoint.transport = .ZMK_TRANSPORT_BLE)
    (hbonded : state.active_profile_bonded = false)
    (hidx : state.selected_endpoint.ble_profile_index = p)
    (h0 : 0 ≤ p) (h2 : p ≤ 2) (hflag : s.ble_adv_led_on = false) :
    (set_led_for_endpoint b state false s).leds (b.led_ble p) = false ∧
    (expiries 1 (set_led_for_endpoint b state false s)).leds (b.led_ble p) = true ∧
    (expiries 2 (set_led_for_endpoint b state false s)).leds (b.led_ble p) = false := by
  obtain ⟨h01, h02, h03, -, h12, h13, -, h23, -, -⟩ := hb
  obtain ⟨l, f, i, t⟩ := s
  simp only at hflag
  subst hflag
  rcases profile_cases p h0 h2 with rfl | rfl | rfl <;>
    simp [expiries, set_led_for_endpoint, ht, hbonded, hidx, Board.led_ble, led_on,
      led_off, led_write_nat, k_timer_start, k_timer_stop, k_timer_expire,
      ble_adv_timer_handler, h12, h13, h23]

/-- C7: for every state and all profile indices p1, p2 in {0,1,2} with
p1 different from p2, after a not-bonded BLE endpoint-changed event for p1,
any number n of timer expiries, and then a not-bonded BLE endpoint-changed
event for p2: LED[p1] is off, `ble_adv_led_index` is the LED of p2, the single
timer holds exactly one arming (repeating 500 ms if the profile is not
connected, one-shot 5000 ms if it is), and LED[p1] is still off after any
number m of further timer expiries. -/
theorem blink_target_superseded (b : Board) (hb : b.distinct)
    (st1 st2 : output_status_state) (c1 c2 : Bool) (s : State) (p1 p2 : Int) (n : Nat)
    (ht1 : st1.selected_endpoint.transport = .ZMK_TRANSPORT_BLE)
    (hb1 : st1.active_profile_bonded = false)
    (hi1 : st1.selected_endpoint.ble_profile_index = p1)
    (ht2 : st2.selected_endpoint.transport = .ZMK_TRANSPORT_BLE)
    (hb2 : st2.active_profile_bonded = false)
    (hi2 : st2.selected_endpoint.ble_profile_index = p2)
    (h10 : 0 ≤ p1) (h12 : p1 ≤ 2) (h20 : 0 ≤ p2) (h22 : p2 ≤ 2) (hne : p1 ≠ p2) :
    (set_led_for_endpoint b st2 c2
        (expiries n (set_led_for_endpoint b st1 c1 s))).leds (b.led_ble p1) = false ∧
    (set_led_for_endpoint b st2 c2
        (expiries n (set_led_for_endpoint b st1 c1 s))).ble_adv_led_index
      = (b.led_ble p2 : Int) ∧
    (set_led_for_endpoint b st2 c2
        (expiries n (set_led_for_endpoint b st1 c1 s))).ble_adv_timer
      = some (if c2 = true then { duration := 5000, period := 0 }
              else { duration := 500, period := 500 }) ∧
    ∀ m : Nat,
      (expiries m (set_led_for_endpoint b st2 c2
        (expiries n (set_led_for_endpoint b st1 c1 s)))).leds (b.led_ble p1) = false := by
  generalize expiries n (set_led_for_endpoint b st1 c1 s) = s1
  obtain ⟨-, -, -, -, d01, d02, -, d12, -, -⟩ := hb
  have hoff : (set_led_for_endpoint b st2 c2 s1).leds (b.led_ble p1) = false := by
    rcases profile_cases p1 h10 h12 with rfl | rfl | rfl <;>
      rcases profile_cases p2 h20 h22 with rfl | rfl | rfl <;> cases c2 <;>
      simp_all [set_led_for_endpoint, Board.led_ble, led_on, led_off, led_write_nat,
        k_timer_start, k_timer_stop, Ne.symm d01, Ne.symm d02, Ne.symm d12]
  have htarget : (set_led_for_endpoint b st2 c2 s1).ble_adv_led_index
      = (b.led_ble p2 : Int) :=
    (not_bonded_effect b st2 c2 s1 p2 ht2 hb2 hi2 h20 h22).1
  have hleds : b.led_ble p1 ≠ b.led_ble p2 := by
    rcases profile_cases p1 h10 h12 with rfl | rfl | rfl <;>
      rcases profile_cases p2 h20 h22 with rfl | rfl | rfl <;>
      simp_all [Board.led_ble, Ne.symm d01, Ne.symm d02, Ne.symm d12]
  refine ⟨hoff, htarget, ?_, ?_⟩
  · exact (not_bonded_effect b st2 c2 s1 p2 ht2 hb2 hi2 h20 h22).2.1
  · intro m
    rw [expiries_leds_other m _ (b.led_ble p1) (by rw [htarget]; exact_mod_cast hleds)]
    exact hoff

theorem blink_target_superseded_witness :
    (set_led_for_endpoint sampleBoard (bleSelection 1 false false) false
        (expiries 3 (set_led_for_endpoint sampleBoard (bleSelection 0 false false) false
          initState))).leds (sampleBoard.led_ble 0) = false ∧
    (set_led_for_endpoint sampleBoard (bleSelection 1 false false) false
        (expiries 3 (set_led_for_endpoint sampleBoard (bleSelection 0 false false) false
          initState))).ble_adv_led_index = (sampleBoard.led_ble 1 : Int) ∧
    (set_led_for_endpoint sampleBoard (bleSelection 1 false false) false
        (expiries 3 (set_led_for_endpoint sampleBoard (bleSelection 0 false false) false
          initState))).ble_adv_timer
      = some (if false = true then { duration := 5000, period := 0 }
              else { duration := 500, period := 500 }) ∧
    ∀ m : Nat,
      (expiries m (set_led_for_endpoint sampleBoard (bleSelection 1 false false) false
        (expiries 3 (set_led_for_endpoint sampleBoard (bleSelection 0 false false) false
          initState)))).leds (sampleBoard.led_ble 0) = false :=
  blink_target_superseded sampleBoard (by decide) (bleSelection 0 false false)
    (bleSelection 1 false false) false false initState 0 1 3 rfl rfl rfl rfl rfl rfl
    (by decide) (by decide) (by decide) (by decide) (by decide)

/-! ## Mode-change button -/

/-- C8: for every prior state, a PRESS event whose button id is
`ZMK_BUTTON_ID_OUT_TOG` or `ZMK_BUTTON_ID_OUT_BLE` in `mode_change_listener`
leaves the USB LED off and leaves the BLE-0, BLE-1, BLE-2 and Caps-Lock LEDs,
`ble_adv_led_index`, `ble_adv_led_on` and the timer exactly as they were. -/
theorem mode_change_listener_press (b : Board) (hb : b.distinct)
    (event : zmk_button_event) (s : State)
    (hact : event.action = .ZMK_BUTTON_PRESS)
    (hid : event.button_id = b.ZMK_BUTTON_ID_OUT_TOG ∨
           event.button_id = b.ZMK_BUTTON_ID_OUT_BLE) :
    (mode_change_listener b event s).2.leds b.led_usb = false ∧
    (mode_change_listener b event s).2.leds b.led_ble_0 = s.leds b.led_ble_0 ∧
    (mode_change_listener b event s).2.leds b.led_ble_1 = s.leds b.led_ble_1 ∧
    (mode_change_listener b event s).2.leds b.led_ble_2 = s.leds b.led_ble_2 ∧
    (mode_change_listener b event s).2.leds b.led_caps = s.leds b.led_caps ∧
    (mode_change_listener b event s).2.ble_adv_led_index = s.ble_adv_led_index ∧
    (mode_change_listener b event s).2.ble_adv_led_on = s.ble_adv_led_on ∧
    (mode_change_listener b event s).2.ble_adv_timer = s.ble_adv_timer := by
  obtain ⟨h01, h02, h03, h04, -, -, -, -, -, -⟩ := hb
  simp [mode_change_listener, hact, hid, LED_USB_PIN, led_off, led_write_nat,
    Ne.symm h01, Ne.symm h02, Ne.symm h03, Ne.symm h04]

theorem mode_change_listener_press_witness :
    (mode_change_listener sampleBoard (press 3) blinkingOnce).2.leds sampleBoard.led_usb
      = false ∧
    (mode_change_listener sampleBoard (press 3) blinkingOnce).2.leds sampleBoard.led_ble_0
      = blinkingOnce.leds sampleBoard.led_ble_0 ∧
    (mode_change_listener sampleBoard (press 3) blinkingOnce).2.leds sampleBoard.led_ble_1
      = blinkingOnce.leds sampleBoard.led_ble_1 ∧
    (mode_change_listener sampleBoard (press 3) blinkingOnce).2.leds sampleBoard.led_ble_2
      = blinkingOnce.leds sampleBoard.led_ble_2 ∧
    (mode_change_listener sampleBoard (press 3) blinkingOnce).2.leds sampleBoard.led_caps
      = blinkingOnce.leds sampleBoard.led_caps ∧
    (mode_change_listener sampleBoard (press 3) blinkingOnce).2.ble_adv_led_index
      = blinkingOnce.ble_adv_led_index ∧
    (mode_change_listener sampleBoard (press 3) blinkingOnce).2.ble_adv_led_on
      = blinkingOnce.ble_adv_led_on ∧
    (mode_change_listener sampleBoard (press 3) blinkingOnce).2.ble_adv_timer
      = blinkingOnce.ble_adv_timer :=
  mode_change_listener_press sampleBoard (by decide) (press 3) blinkingOnce rfl
    (Or.inl rfl)

/-! ## Caps Lock indicator -/

theorem and_two_pow_ne_zero (f n : Nat) : f &&& 2 ^ n ≠ 0 ↔ f.testBit n = true := by
  constructor
  · intro h
    by_contra hbit
    apply h
    apply Nat.eq_of_testBit_eq
    intro i
    simp only [Nat.testBit_and, Nat.zero_testBit, Nat.testBit_two_pow]
    by_cases hi : n = i
    · subst hi
      simp [hbit]
    · simp [hi]
  · intro hbit h
    have h1 : (f &&& 2 ^ n).testBit n = true := by
      simp [Nat.testBit_and, Nat.testBit_two_pow, hbit]
    rw [h] at h1
    simp at h1

theorem capsBit_eq (b : Board) (hk : b.capsUsageOk) :
    capsBit b = 2 ^ (b.HID_USAGE_LED_CAPS_LOCK - 1) := by
  unfold capsBit
  rw [Nat.one_shiftLeft]
  apply Nat.mod_eq_of_lt
  apply Nat.pow_lt_pow_right (by norm_num)
  have := hk.2
  omega

/-- C9: for every HID indicator flags value f and every prior state, after
`update_caps_lock_led` the Caps-Lock LED is on if and only if bit
`HID_USAGE_LED_CAPS_LOCK - 1` is set in f; a flags value g that agrees with f
on that bit yields the same Caps-Lock LED state. -/
theorem update_caps_lock_led_follows_caps_bit (b : Board) (hk : b.capsUsageOk)
    (f : Nat) (s : State) :
    ((update_caps_lock_led b f s).2.leds b.led_caps = true ↔
      f.testBit (b.HID_USAGE_LED_CAPS_LOCK - 1) = true) ∧
    ∀ g : Nat, g.testBit (b.HID_USAGE_LED_CAPS_LOCK - 1)
        = f.testBit (b.HID_USAGE_LED_CAPS_LOCK - 1) →
      (update_caps_lock_led b g s).2.leds b.led_caps
        = (update_caps_lock_led b f s).2.leds b.led_caps := by
  have key : ∀ x : Nat, (update_caps_lock_led b x s).2.leds b.led_caps
      = x.testBit (b.HID_USAGE_LED_CAPS_LOCK - 1) := by
    intro x
    unfold update_caps_lock_led
    rw [capsBit_eq b hk]
    by_cases hx : x.testBit (b.HID_USAGE_LED_CAPS_LOCK - 1) = true
    · rw [if_pos ((and_two_pow_ne_zero x _).2 hx)]
      simp [led_on, led_write_nat, hx]
    · rw [if_neg (fun h => hx ((and_two_pow_ne_zero x _).1 h))]
      simp [led_off, led_write_nat, hx]
  refine ⟨by rw [key], ?_⟩
  intro g hg
  rw [key, key, hg]

theorem update_caps_lock_led_follows_caps_bit_witness :
    ((update_caps_lock_led sampleBoard 7 initState).2.leds sampleBoard.led_caps = true ↔
      Nat.testBit 7 (sampleBoard.HID_USAGE_LED_CAPS_LOCK - 1) = true) ∧
    ∀ g : Nat, g.testBit (sampleBoard.HID_USAGE_LED_CAPS_LOCK - 1)
        = Nat.testBit 7 (sampleBoard.HID_USAGE_LED_CAPS_LOCK - 1) →
      (update_caps_lock_led sampleBoard g initState).2.leds sampleBoard.led_caps
        = (update_caps_lock_led sampleBoard 7 initState).2.leds sampleBoard.led_caps :=
  update_caps_lock_led_follows_caps_bit sampleBoard (by decide) 7 initState

/-! ## Invalid button id -/

/-- C10: for every prior state and every button_id outside {0,1,2}, a PRESS
event in `bt_sel_listener` returns 0 and leaves the whole state (every LED,
`ble_adv_led_index`, `ble_adv_led_on`, the timer arming) unchanged. -/
theorem bt_sel_listener_invalid_index (b : Board) (event : zmk_button_event) (s : State)
    (hact : event.action = .ZMK_BUTTON_PRESS)
    (hid : event.button_id < 0 ∨ 2 < event.button_id) :
    bt_sel_listener b event s = (0, s) := by
  have hrange : ¬ (event.button_id ≥ 0 ∧ event.button_id ≤ 2) := by omega
  simp [bt_sel_listener, hact, hrange]

theorem bt_sel_listener_invalid_index_witness :
    bt_sel_listener sampleBoard (press 3) blinkingOnce = (0, blinkingOnce) ∧
    bt_sel_listener sampleBoard (press (-1)) blinkingOnce = (0, blinkingOnce) :=
  ⟨bt_sel_listener_invalid_index sampleBoard (press 3) blinkingOnce rfl
      (Or.inr (by decide)),
   bt_sel_listener_invalid_index sampleBoard (press (-1)) blinkingOnce rfl
      (Or.inl (by decide))⟩

/-! ## Invalid profile index in an endpoint-changed event -/

/-- C11 (as stated) fails: on the sample board, with the USB LED on after a
USB selection, an endpoint-changed event for a bonded, connected BLE selection
with profile index 5 turns the USB LED off, so the LED bank after the handler
differs from the LED bank before it. -/
theorem set_led_for_endpoint_invalid_index_changes_leds :
    usbSelected.leds sampleBoard.led_usb = true ∧
    (set_led_for_endpoint sampleBoard (bleSelection 5 true true) true usbSelected).leds
      sampleBoard.led_usb = false ∧
    (set_led_for_endpoint sampleBoard (bleSelection 5 true true) true usbSelected).leds
      ≠ usbSelected.leds := by
  refine ⟨by decide, by decide, ?_⟩
  intro h
  have h0 := congrFun h sampleBoard.led_usb
  revert h0
  decide

/-- Invalid index on the not-bonded branch: on the sample board, while profile
0 is the blink target, an endpoint-changed event for a not-bonded BLE
selection with profile index 7, the active profile being connected, turns on
the LED of profile 0 (the stale target) and arms the 5000 ms one-shot. -/
theorem set_led_for_endpoint_invalid_index_stale_target :
    blinkArmed.leds (sampleBoard.led_ble 0) = false ∧
    (set_led_for_endpoint sampleBoard (bleSelection 7 false true) true blinkArmed).leds
      (sampleBoard.led_ble 0) = true ∧
    (set_led_for_endpoint sampleBoard (bleSelection 7 false true) true
      blinkArmed).ble_adv_timer = some { duration := 5000, period := 0 } := by
  decide

/-- C11 (amended): for every prior state and every bonded BLE selection whose
profile index is outside {0,1,2} (any connected status), `set_led_for_endpoint`
lights no LED: afterwards the USB LED and the three BLE LEDs are off (they are
cleared first), every other LED is as before, and `ble_adv_led_index`,
`ble_adv_led_on` and the timer arming are unchanged. -/
theorem set_led_for_endpoint_invalid_index_bonded (b : Board)
    (state : output_status_state) (c : Bool) (s : State)
    (ht : state.selected_endpoint.transport = .ZMK_TRANSPORT_BLE)
    (hbonded : state.active_profile_bonded = true)
    (hinv : state.selected_endpoint.ble_profile_index < 0 ∨
            2 < state.selected_endpoint.ble_profile_index) :
    (set_led_for_endpoint b state c s).leds b.led_usb = false ∧
    (set_led_for_endpoint b state c s).leds b.led_ble_0 = false ∧
    (set_led_for_endpoint b state c s).leds b.led_ble_1 = false ∧
    (set_led_for_endpoint b state c s).leds b.led_ble_2 = false ∧
    (∀ j : Nat, j ≠ b.led_usb → j ≠ b.led_ble_0 → j ≠ b.led_ble_1 → j ≠ b.led_ble_2 →
      (set_led_for_endpoint b state c s).leds j = s.leds j) ∧
    (set_led_for_endpoint b state c s).ble_adv_led_index = s.ble_adv_led_index ∧
    (set_led_for_endpoint b state c s).ble_adv_led_on = s.ble_adv_led_on ∧
    (set_led_for_endpoint b state c s).ble_adv_timer = s.ble_adv_timer := by
  have n0 : state.selected_endpoint.ble_profile_index ≠ 0 := by omega
  have n1 : state.selected_endpoint.ble_profile_index ≠ 1 := by omega
  have n2 : state.selected_endpoint.ble_profile_index ≠ 2 := by omega
  cases hconn : state.active_profile_connected <;>
    simp +contextual [set_led_for_endpoint, ht, hbonded, hconn, n0, n1, n2, led_off,
      led_write_nat]

theorem set_led_for_endpoint_invalid_index_bonded_witness :
    (set_led_for_endpoint sampleBoard (bleSelection 5 true true) true usbSelected).leds
      sampleBoard.led_usb = false ∧
    (set_led_for_endpoint sampleBoard (bleSelection 5 true true) true usbSelected).leds
      sampleBoard.led_ble_0 = false ∧
    (set_led_for_endpoint sampleBoard (bleSelection 5 true true) true usbSelected).leds
      sampleBoard.led_ble_1 = false ∧
    (set_led_for_endpoint sampleBoard (bleSelection 5 true true) true usbSelected).leds
      sampleBoard.led_ble_2 = false ∧
    (∀ j : Nat, j ≠ sampleBoard.led_usb → j ≠ sampleBoard.led_ble_0 →
      j ≠ sampleBoard.led_ble_1 → j ≠ sampleBoard.led_ble_2 →
      (set_led_for_endpoint sampleBoard (bleSelection 5 true true) true usbSelected).leds j
        = usbSelected.leds j) ∧
    (set_led_for_endpoint sampleBoard (bleSelection 5 true true) true
      usbSelected).ble_adv_led_index = usbSelected.ble_adv_led_index ∧
    (set_led_for_endpoint sampleBoard (bleSelection 5 true true) true
      usbSelected).ble_adv_led_on = usbSelected.ble_adv_led_on ∧
    (set_led_for_endpoint sampleBoard (bleSelection 5 true true) true
      usbSelected).ble_adv_timer = usbSelected.ble_adv_timer :=
  set_led_for_endpoint_invalid_index_bonded sampleBoard (bleSelection 5 true true) true
    usbSelected rfl rfl (Or.inr (by decide))

/-! ## Timer callback with no target -/

/-- C12: for every state in which `ble_adv_led_index` is negative (unset),
`ble_adv_timer_handler` changes nothing: the state after the call, with every
LED, `ble_adv_led_on` and `ble_adv_led_index`, equals the state before. -/
theorem ble_adv_timer_handler_unset_target (s : State) (h : s.ble_adv_led_index < 0) :
    ble_adv_timer_handler s = s := by
  have hneg : ¬ (s.ble_adv_led_index ≥ 0) := by omega
  simp [ble_adv_timer_handler, hneg]

theorem ble_adv_timer_handler_unset_target_witness :
    initState.ble_adv_led_index < 0 ∧ ble_adv_timer_handler initState = initState :=
  ⟨by decide, ble_adv_timer_handler_unset_target initState (by decide)⟩

/-! ## Bonded but not connected -/

theorem expiries_stopped (n : Nat) (s : State) (h : s.ble_adv_timer = none) :
    expiries n s = s := by
  induction n with
  | zero => rfl
  | succ n ih =>
    have hk : k_timer_expire s = s := by simp [k_timer_expire, h]
    rw [expiries, hk, ih]

theorem bonded_not_connected_effect (b : Board)
    (state : output_status_state) (c : Bool) (s : State)
    (ht : state.selected_endpoint.transport = .ZMK_TRANSPORT_BLE)
    (hbonded : state.active_profile_bonded = true)
    (hconn : state.active_profile_connected = false) :
    set_led_for_endpoint b state c s
      = led_off (led_off (led_off (led_off s b.led_usb) b.led_ble_0) b.led_ble_1)
          b.led_ble_2 := by
  simp [set_led_for_endpoint, ht, hbonded, hconn]

/-- C13 (as stated) fails: on the sample board, while profile 0 is blinking
(repeating timer armed, reached from boot by one endpoint-changed event), an
endpoint-changed event for the bonded, not connected profile 0 turns the four
LEDs off but leaves the timer armed, and the next expiry turns LED[0] on. -/
theorem bonded_not_connected_blink_continues :
    (set_led_for_endpoint sampleBoard (bleSelection 0 true false) false blinkArmed).leds
      (sampleBoard.led_ble 0) = false ∧
    (set_led_for_endpoint sampleBoard (bleSelection 0 true false) false
      blinkArmed).ble_adv_timer = some { duration := 500, period := 500 } ∧
    (expiries 1 (set_led_for_endpoint sampleBoard (bleSelection 0 true false) false
      blinkArmed)).leds (sampleBoard.led_ble 0) = true := by
  decide

/-- C13 (amended): for every prior state, after handling an endpoint-changed
event with transport BLE, bonded = true and connected = false the USB LED and
the three BLE LEDs are off and the timer arming is as it was before; if before
the event the timer was stopped or `ble_adv_led_index` was unset, the four
LEDs are still off after any number n of subsequent timer expiries. -/
theorem set_led_for_endpoint_bonded_not_connected (b : Board)
    (state : output_status_state) (c : Bool) (s : State)
    (ht : state.selected_endpoint.transport = .ZMK_TRANSPORT_BLE)
    (hbonded : state.active_profile_bonded = true)
    (hconn : state.active_profile_connected = false) :
    ((set_led_for_endpoint b state c s).leds b.led_usb = false ∧
     (set_led_for_endpoint b state c s).leds b.led_ble_0 = false ∧
     (set_led_for_endpoint b state c s).leds b.led_ble_1 = false ∧
     (set_led_for_endpoint b state c s).leds b.led_ble_2 = false) ∧
    (set_led_for_endpoint b state c s).ble_adv_timer = s.ble_adv_timer ∧
    (s.ble_adv_timer = none ∨ s.ble_adv_led_index < 0 →
      ∀ n : Nat,
        (expiries n (set_led_for_endpoint b state c s)).leds b.led_usb = false ∧
        (expiries n (set_led_for_endpoint b state c s)).leds b.led_ble_0 = false ∧
        (expiries n (set_led_for_endpoint b state c s)).leds b.led_ble_1 = false ∧
        (expiries n (set_led_for_endpoint b state c s)).leds b.led_ble_2 = false) := by
  rw [bonded_not_connected_effect b state c s ht hbonded hconn]
  have hoff :
      (led_off (led_off (led_off (led_off s b.led_usb) b.led_ble_0) b.led_ble_1)
          b.led_ble_2).leds b.led_usb = false ∧
      (led_off (led_off (led_off (led_off s b.led_usb) b.led_ble_0) b.led_ble_1)
          b.led_ble_2).leds b.led_ble_0 = false ∧
      (led_off (led_off (led_off (led_off s b.led_usb) b.led_ble_0) b.led_ble_1)
          b.led_ble_2).leds b.led_ble_1 = false ∧
      (led_off (led_off (led_off (led_off s b.led_usb) b.led_ble_0) b.led_ble_1)
          b.led_ble_2).leds b.led_ble_2 = false := by
    simp +contextual [led_off, led_write_nat]
  refine ⟨hoff, rfl, ?_⟩
  intro hquiet n
  rcases hquiet with hstop | hneg
  · rw [expiries_stopped n _ (by simpa [led_off] using hstop)]
    exact hoff
  · have hidx : (led_off (led_off (led_off (led_off s b.led_usb) b.led_ble_0) b.led_ble_1)
          b.led_ble_2).ble_adv_led_index = s.ble_adv_led_index := rfl
    have hne : ∀ j : Nat, (j : Int) ≠ (led_off (led_off (led_off (led_off s b.led_usb)
        b.led_ble_0) b.led_ble_1) b.led_ble_2).ble_adv_led_index := by
      intro j
      rw [hidx]
      omega
    rw [expiries_leds_other n _ _ (hne _), expiries_leds_other n _ _ (hne _),
      expiries_leds_other n _ _ (hne _), expiries_leds_other n _ _ (hne _)]
    exact hoff

theorem set_led_for_endpoint_bonded_not_connected_witness :
    usbSelected.ble_adv_timer = none ∧
    ((set_led_for_endpoint sampleBoard (bleSelection 1 true false) false usbSelected).leds
        sampleBoard.led_usb = false ∧
     (set_led_for_endpoint sampleBoard (bleSelection 1 true false) false usbSelected).leds
        sampleBoard.led_ble_0 = false ∧
     (set_led_for_endpoint sampleBoard (bleSelection 1 true false) false usbSelected).leds
        sampleBoard.led_ble_1 = false ∧
     (set_led_for_endpoint sampleBoard (bleSelection 1 true false) false usbSelected).leds
        sampleBoard.led_ble_2 = false) ∧
    (set_led_for_endpoint sampleBoard (bleSelection 1 true false) false
        usbSelected).ble_adv_timer = usbSelected.ble_adv_timer ∧
    ∀ n : Nat,
      (expiries n (set_led_for_endpoint sampleBoard (bleSelection 1 true false) false
        usbSelected)).leds sampleBoard.led_usb = false ∧
      (expiries n (set_led_for_endpoint sampleBoard (bleSelection 1 true false) false
        usbSelected)).leds sampleBoard.led_ble_0 = false ∧
      (expiries n (set_led_for_endpoint sampleBoard (bleSelection 1 true false) false
        usbSelected)).leds sampleBoard.led_ble_1 = false ∧
      (expiries n (set_led_for_endpoint sampleBoard (bleSelection 1 true false) false
        usbSelected)).leds sampleBoard.led_ble_2 = false :=
  ⟨by decide,
   (set_led_for_endpoint_bonded_not_connected sampleBoard (bleSelection 1 true false) false
      usbSelected rfl rfl rfl).1,
   (set_led_for_endpoint_bonded_not_connected sampleBoard (bleSelection 1 true false) false
      usbSelected rfl rfl rfl).2.1,
   (set_led_for_endpoint_bonded_not_connected sampleBoard (bleSelection 1 true false) false
      usbSelected rfl rfl rfl).2.2 (Or.inl (by decide))⟩

/-! ## Initialisation -/

/-- C14: `leds_init` returns `-ENODEV` if and only if the LED device is not
ready, and returns 0 if and only if it is ready (the two codes differ). -/
theorem leds_init_reports_readiness (ready : Bool) :
    (leds_init ready = -ENODEV ↔ ready = false) ∧
    (leds_init ready = 0 ↔ ready = true) := by
  cases ready <;> simp [leds_init, ENODEV]

/-! ## USB selection and the timer -/

/-- C18: for every prior state, handling a selection with transport USB in
`set_led_for_endpoint` leaves the timer arming, `ble_adv_led_index` and
`ble_adv_led_on` exactly as they were; a repeating blink armed before the
event is still armed after it. -/
theorem set_led_for_endpoint_usb_no_timer (b : Board)
    (state : output_status_state) (c : Bool) (s : State)
    (ht : state.selected_endpoint.transport = .ZMK_TRANSPORT_USB) :
    (set_led_for_endpoint b state c s).ble_adv_timer = s.ble_adv_timer ∧
    (set_led_for_endpoint b state c s).ble_adv_led_index = s.ble_adv_led_index ∧
    (set_led_for_endpoint b state c s).ble_adv_led_on = s.ble_adv_led_on := by
  simp [set_led_for_endpoint, ht, led_on, led_off]

theorem set_led_for_endpoint_usb_no_timer_witness :
    blinkingOnce.ble_adv_timer = some { duration := 500, period := 500 } ∧
    (set_led_for_endpoint sampleBoard (usbSelection 0 false false) false
        blinkingOnce).ble_adv_timer = blinkingOnce.ble_adv_timer ∧
    (set_led_for_endpoint sampleBoard (usbSelection 0 false false) false
        blinkingOnce).ble_adv_led_index = blinkingOnce.ble_adv_led_index ∧
    (set_led_for_endpoint sampleBoard (usbSelection 0 false false) false
        blinkingOnce).ble_adv_led_on = blinkingOnce.ble_adv_led_on :=
  ⟨by decide,
   set_led_for_endpoint_usb_no_timer sampleBoard (usbSelection 0 false false) false
     blinkingOnce rfl⟩

/-! ## Idempotence of the endpoint rendering -/

theorem led_write_apply (l : Nat → Bool) (i : Int) (v : Bool) (j : Nat) :
    led_write l i v j = if 0 ≤ i ∧ j = i.toNat then v else l j := by
  unfold led_write
  by_cases h : 0 ≤ i <;> simp [h]

theorem clear_apply (b : Board) (l : Nat → Bool) (j : Nat) :
    led_write (led_write (led_write (led_write l b.led_usb false) b.led_ble_0 false)
      b.led_ble_1 false) b.led_ble_2 false j
      = if j = b.led_usb ∨ j = b.led_ble_0 ∨ j = b.led_ble_1 ∨ j = b.led_ble_2 then false
        else l j := by
  simp only [led_write_nat]
  by_cases h3 : j = b.led_ble_2 <;> by_cases h2 : j = b.led_ble_1 <;>
    by_cases h1 : j = b.led_ble_0 <;> by_cases h0 : j = b.led_usb <;> simp [h0, h1, h2, h3]

theorem clear_clear (b : Board) (l : Nat → Bool) :
    led_write (led_write (led_write (led_write
      (led_write (led_write (led_write (led_write l b.led_usb false) b.led_ble_0 false)
        b.led_ble_1 false) b.led_ble_2 false)
      b.led_usb false) b.led_ble_0 false) b.led_ble_1 false) b.led_ble_2 false
      = led_write (led_write (led_write (led_write l b.led_usb false) b.led_ble_0 false)
          b.led_ble_1 false) b.led_ble_2 false := by
  funext j
  rw [clear_apply, clear_apply]
  by_cases h : j = b.led_usb ∨ j = b.led_ble_0 ∨ j = b.led_ble_1 ∨ j = b.led_ble_2 <;>
    simp [h]

theorem light_clear_light_clear (b : Board) (l : Nat → Bool) (k : Int) :
    led_write (led_write (led_write (led_write (led_write
      (led_write (led_write (led_write (led_write (led_write l b.led_usb false)
        b.led_ble_0 false) b.led_ble_1 false) b.led_ble_2 false) k true)
      b.led_usb false) b.led_ble_0 false) b.led_ble_1 false) b.led_ble_2 false) k true
      = led_write (led_write (led_write (led_write (led_write l b.led_usb false)
          b.led_ble_0 false) b.led_ble_1 false) b.led_ble_2 false) k true := by
  funext j
  rw [led_write_apply, clear_apply, led_write_apply, clear_apply]
  by_cases hk : 0 ≤ k ∧ j = k.toNat <;>
    by_cases h : j = b.led_usb ∨ j = b.led_ble_0 ∨ j = b.led_ble_1 ∨ j = b.led_ble_2 <;>
    simp [hk, h]

/-- C15: for every prior state and every input (endpoint selection with its
bonded and connected status, and the result of the active-profile-connected
query), applying `set_led_for_endpoint` twice in a row with the same input
yields the same state (LED bank, `ble_adv_led_index`, `ble_adv_led_on`, timer
arming) as applying it once. -/
theorem set_led_for_endpoint_idempotent (b : Board) (state : output_status_state)
    (c : Bool) (s : State) :
    set_led_for_endpoint b state c (set_led_for_endpoint b state c s)
      = set_led_for_endpoint b state c s := by
  obtain ⟨l, f, i, t⟩ := s
  obtain ⟨⟨tr, p⟩, api, conn, bonded⟩ := state
  cases tr
  · simp [set_led_for_endpoint, led_on, led_off, light_clear_light_clear]
  · cases bonded
    · by_cases h0 : p = 0
      · cases c <;>
          simp [set_led_for_endpoint, led_on, led_off, k_timer_start, k_timer_stop, h0,
            light_clear_light_clear, clear_clear]
      · by_cases h1 : p = 1
        · cases c <;>
            simp [set_led_for_endpoint, led_on, led_off, k_timer_start, k_timer_stop, h0, h1,
              light_clear_light_clear, clear_clear]
        · by_cases h2 : p = 2
          · cases c <;>
              simp [set_led_for_endpoint, led_on, led_off, k_timer_start, k_timer_stop, h0,
                h1, h2, light_clear_light_clear, clear_clear]
          · cases c <;>
              simp [set_led_for_endpoint, led_on, led_off, k_timer_start, k_timer_stop, h0,
                h1, h2, light_clear_light_clear, clear_clear]
    · cases conn
      · simp [set_led_for_endpoint, led_off, clear_clear]
      · by_cases h0 : p = 0
        · simp [set_led_for_endpoint, led_on, led_off, h0, light_clear_light_clear]
        · by_cases h1 : p = 1
          · simp [set_led_for_endpoint, led_on, led_off, h0, h1, light_clear_light_clear]
          · by_cases h2 : p = 2
            · simp [set_led_for_endpoint, led_on, led_off, h0, h1, h2,
                light_clear_light_clear]
            · simp [set_led_for_endpoint, led_off, h0, h1, h2, clear_clear]

/-! ## The blink target over event sequences -/

theorem set_led_for_endpoint_index_cases (b : Board) (state : output_status_state)
    (c : Bool) (s : State) :
    (set_led_for_endpoint b state c s).ble_adv_led_index = s.ble_adv_led_index ∨
    (set_led_for_endpoint b state c s).ble_adv_led_index = (b.led_ble_0 : Int) ∨
    (set_led_for_endpoint b state c s).ble_adv_led_index = (b.led_ble_1 : Int) ∨
    (set_led_for_endpoint b state c s).ble_adv_led_index = (b.led_ble_2 : Int) := by
  obtain ⟨⟨tr, p⟩, api, conn, bonded⟩ := state
  cases tr
  · simp [set_led_for_endpoint, led_on, led_off]
  · cases bonded
    · by_cases h0 : p = 0 <;> by_cases h1 : p = 1 <;> by_cases h2 : p = 2 <;> cases c <;>
        simp [set_led_for_endpoint, led_on, led_off, k_timer_start, k_timer_stop, h0, h1, h2]
    · cases conn
      · simp [set_led_for_endpoint, led_off]
      · by_cases h0 : p = 0 <;> by_cases h1 : p = 1 <;> by_cases h2 : p = 2 <;>
          simp [set_led_for_endpoint, led_on, led_off, h0, h1, h2]

theorem bt_sel_listener_index_cases (b : Board) (event : zmk_button_event) (s : State) :
    (bt_sel_listener b event s).2.ble_adv_led_index = s.ble_adv_led_index ∨
    (bt_sel_listener b event s).2.ble_adv_led_index = (b.led_ble_0 : Int) ∨
    (bt_sel_listener b event s).2.ble_adv_led_index = (b.led_ble_1 : Int) ∨
    (bt_sel_listener b event s).2.ble_adv_led_index = (b.led_ble_2 : Int) := by
  by_cases ha : event.action = .ZMK_BUTTON_PRESS <;>
    by_cases h0 : event.button_id = 0 <;> by_cases h1 : event.button_id = 1 <;>
    by_cases h2 : event.button_id = 2 <;>
    by_cases hr : event.button_id ≥ 0 ∧ event.button_id ≤ 2 <;>
    simp [bt_sel_listener, led_on, k_timer_start, ha, h0, h1, h2, hr]

theorem update_caps_lock_led_index (b : Board) (flags : Nat) (s : State) :
    (update_caps_lock_led b flags s).2.ble_adv_led_index = s.ble_adv_led_index := by
  unfold update_caps_lock_led
  split_ifs <;> rfl

theorem mode_change_listener_index (b : Board) (event : zmk_button_event) (s : State) :
    (mode_change_listener b event s).2.ble_adv_led_index = s.ble_adv_led_index := by
  unfold mode_change_listener
  split_ifs <;> rfl

theorem step_targetsBle (b : Board) (s : State) (e : Event) (h : targetsBle b s) :
    targetsBle b (step b s e) := by
  unfold targetsBle at h ⊢
  cases e with
  | endpoint_changed state c =>
    rcases set_led_for_endpoint_index_cases b state c s with h1 | h1 | h1 | h1 <;>
      simp [step, endpoint_changed_listener, h1, h]
  | hid_indicators_changed flags =>
    simpa [step, led_keylock_listener_cb, update_caps_lock_led_index] using h
  | bt_sel_button event =>
    rcases bt_sel_listener_index_cases b event s with h1 | h1 | h1 | h1 <;>
      simp [step, h1, h]
  | mode_change_button event =>
    simpa [step, mode_change_listener_index] using h
  | timer_expiry =>
    simpa [step, k_timer_expire_index] using h

theorem run_targetsBle (b : Board) (evs : List Event) (s : State) (h : targetsBle b s) :
    targetsBle b (run b s evs) := by
  induction evs generalizing s with
  | nil => exact h
  | cons e rest ih => exact ih (step b s e) (step_targetsBle b s e h)

theorem initState_targetsBle (b : Board) : targetsBle b initState :=
  Or.inl rfl

/-- C16: in every state reached from the boot state by any sequence of
endpoint-changed, lock-indicator, button and timer-expiry events with
arbitrary payloads, `ble_adv_led_index` is -1 or the index of the BLE-0, BLE-1
or BLE-2 LED; in such a state `ble_adv_timer_handler` leaves every LED other
than those three as it was, in particular the USB LED and the Caps-Lock LED. -/
theorem timer_targets_ble_only (b : Board) (hb : b.distinct) (evs : List Event) :
    ((run b initState evs).ble_adv_led_index = -1 ∨
     (run b initState evs).ble_adv_led_index = (b.led_ble_0 : Int) ∨
     (run b initState evs).ble_adv_led_index = (b.led_ble_1 : Int) ∨
     (run b initState evs).ble_adv_led_index = (b.led_ble_2 : Int)) ∧
    (∀ j : Nat, j ≠ b.led_ble_0 → j ≠ b.led_ble_1 → j ≠ b.led_ble_2 →
      (ble_adv_timer_handler (run b initState evs)).leds j = (run b initState evs).leds j) ∧
    (ble_adv_timer_handler (run b initState evs)).leds b.led_usb
      = (run b initState evs).leds b.led_usb ∧
    (ble_adv_timer_handler (run b initState evs)).leds b.led_caps
      = (run b initState evs).leds b.led_caps := by
  have hinv : targetsBle b (run b initState evs) :=
    run_targetsBle b evs initState (initState_targetsBle b)
  have hother : ∀ j : Nat, j ≠ b.led_ble_0 → j ≠ b.led_ble_1 → j ≠ b.led_ble_2 →
      (ble_adv_timer_handler (run b initState evs)).leds j
        = (run b initState evs).leds j := by
    intro j h0 h1 h2
    apply ble_adv_timer_handler_leds_other
    rcases hinv with h | h | h | h <;> rw [h] <;> omega
  obtain ⟨h01, h02, h03, -, -, -, h14, -, h24, h34⟩ := hb
  exact ⟨hinv, hother, hother _ h01 h02 h03, hother _ (Ne.symm h14) (Ne.symm h24)
    (Ne.symm h34)⟩

theorem timer_targets_ble_only_witness :
    ((run sampleBoard initState
        [Event.bt_sel_button (press 2), Event.timer_expiry]).ble_adv_led_index = -1 ∨
     (run sampleBoard initState
        [Event.bt_sel_button (press 2), Event.timer_expiry]).ble_adv_led_index
        = (sampleBoard.led_ble_0 : Int) ∨
     (run sampleBoard initState
        [Event.bt_sel_button (press 2), Event.timer_expiry]).ble_adv_led_index
        = (sampleBoard.led_ble_1 : Int) ∨
     (run sampleBoard initState
        [Event.bt_sel_button (press 2), Event.timer_expiry]).ble_adv_led_index
        = (sampleBoard.led_ble_2 : Int)) ∧
    (∀ j : Nat, j ≠ sampleBoard.led_ble_0 → j ≠ sampleBoard.led_ble_1 →
      j ≠ sampleBoard.led_ble_2 →
      (ble_adv_timer_handler (run sampleBoard initState
        [Event.bt_sel_button (press 2), Event.timer_expiry])).leds j
        = (run sampleBoard initState
            [Event.bt_sel_button (press 2), Event.timer_expiry]).leds j) ∧
    (ble_adv_timer_handler (run sampleBoard initState
        [Event.bt_sel_button (press 2), Event.timer_expiry])).leds sampleBoard.led_usb
      = (run sampleBoard initState
          [Event.bt_sel_button (press 2), Event.timer_expiry]).leds sampleBoard.led_usb ∧
    (ble_adv_timer_handler (run sampleBoard initState
        [Event.bt_sel_button (press 2), Event.timer_expiry])).leds sampleBoard.led_caps
      = (run sampleBoard initState
          [Event.bt_sel_button (press 2), Event.timer_expiry]).leds sampleBoard.led_caps :=
  timer_targets_ble_only sampleBoard (by decide)
    [Event.bt_sel_button (press 2), Event.timer_expiry]

/-! ## Frame of the handlers on the LED bank -/

theorem set_led_for_endpoint_leds_other (b : Board) (state : output_status_state)
    (c : Bool) (s : State) (j : Nat)
    (hu : j ≠ b.led_usb) (h0 : j ≠ b.led_ble_0) (h1 : j ≠ b.led_ble_1)
    (h2 : j ≠ b.led_ble_2) (hi : (j : Int) ≠ s.ble_adv_led_index) :
    (set_led_for_endpoint b state c s).leds j = s.leds j := by
  obtain ⟨⟨tr, p⟩, api, conn, bonded⟩ := state
  cases tr
  · simp [set_led_for_endpoint, led_on, led_off, led_write_nat, hu, h0, h1, h2]
  · cases bonded
    · by_cases e0 : p = 0 <;> by_cases e1 : p = 1 <;> by_cases e2 : p = 2 <;> cases c <;>
        simp [set_led_for_endpoint, led_on, led_off, k_timer_start, k_timer_stop,
          led_write_nat, led_write_other _ _ _ _ hi, hu, h0, h1, h2, e0, e1, e2]
    · cases conn
      · simp [set_led_for_endpoint, led_off, led_write_nat, hu, h0, h1, h2]
      · by_cases e0 : p = 0 <;> by_cases e1 : p = 1 <;> by_cases e2 : p = 2 <;>
          simp [set_led_for_endpoint, led_on, led_off, led_write_nat, hu, h0, h1, h2,
            e0, e1, e2]

theorem bt_sel_listener_leds_other (b : Board) (event : zmk_button_event) (s : State)
    (j : Nat) (h0 : j ≠ b.led_ble_0) (h1 : j ≠ b.led_ble_1) (h2 : j ≠ b.led_ble_2) :
    (bt_sel_listener b event s).2.leds j = s.leds j := by
  by_cases ha : event.action = .ZMK_BUTTON_PRESS <;>
    by_cases e0 : event.button_id = 0 <;> by_cases e1 : event.button_id = 1 <;>
    by_cases e2 : event.button_id = 2 <;>
    by_cases hr : event.button_id ≥ 0 ∧ event.button_id ≤ 2 <;>
    simp [bt_sel_listener, led_on, k_timer_start, led_write_nat, ha, e0, e1, e2, hr,
      h0, h1, h2]

theorem mode_change_listener_leds_other (b : Board) (event : zmk_button_event) (s : State)
    (j : Nat) (hu : j ≠ b.led_usb) :
    (mode_change_listener b event s).2.leds j = s.leds j := by
  by_cases ha : event.action = .ZMK_BUTTON_PRESS <;>
    by_cases hid : event.button_id = b.ZMK_BUTTON_ID_OUT_TOG ∨
      event.button_id = b.ZMK_BUTTON_ID_OUT_BLE <;>
    simp [mode_change_listener, LED_USB_PIN, led_off, led_write_nat, ha, hid, hu]

theorem clear_state_idem (b : Board) (s : State) :
    led_off (led_off (led_off (led_off
      (led_off (led_off (led_off (led_off s b.led_usb) b.led_ble_0) b.led_ble_1) b.led_ble_2)
      b.led_usb) b.led_ble_0) b.led_ble_1) b.led_ble_2
      = led_off (led_off (led_off (led_off s b.led_usb) b.led_ble_0) b.led_ble_1)
          b.led_ble_2 := by
  simp [led_off, clear_clear]

/-- C17: for every prior state and every p in {0,1,2}, a PRESS event for p in
`bt_sel_listener` leaves the USB LED, the Caps-Lock LED and the two BLE LEDs
other than LED[p] exactly as they were.  `set_led_for_endpoint` instead turns
the USB LED and the three BLE LEDs off first: its result is the same when
these four LEDs are turned off beforehand, and after a BLE selection of
profile p (any bonded and connected status) the USB LED and the two BLE LEDs
other than LED[p] are off. -/
theorem bt_sel_listener_keeps_siblings (b : Board) (hb : b.distinct)
    (event : zmk_button_event) (s : State) (p : Int)
    (hact : event.action = .ZMK_BUTTON_PRESS) (hid : event.button_id = p)
    (h0 : 0 ≤ p) (h2 : p ≤ 2) :
    ((bt_sel_listener b event s).2.leds b.led_usb = s.leds b.led_usb ∧
     (bt_sel_listener b event s).2.leds b.led_caps = s.leds b.led_caps ∧
     ∀ q : Int, 0 ≤ q → q ≤ 2 → q ≠ p →
       (bt_sel_listener b event s).2.leds (b.led_ble q) = s.leds (b.led_ble q)) ∧
    (∀ (state : output_status_state) (c : Bool),
      set_led_for_endpoint b state c s
        = set_led_for_endpoint b state c
            (led_off (led_off (led_off (led_off s b.led_usb) b.led_ble_0) b.led_ble_1)
              b.led_ble_2)) ∧
    (∀ (bonded connected c : Bool),
      (set_led_for_endpoint b (bleSelection p bonded connected) c s).leds b.led_usb = false ∧
      ∀ q : Int, 0 ≤ q → q ≤ 2 → q ≠ p →
        (set_led_for_endpoint b (bleSelection p bonded connected) c s).leds (b.led_ble q)
          = false) := by
  obtain ⟨h01, h02, h03, h04, h12, h13, h14, h23, h24, h34⟩ := hb
  refine ⟨⟨?_, ?_, ?_⟩, ?_, ?_⟩
  · exact bt_sel_listener_leds_other b event s _ h01 h02 h03
  · exact bt_sel_listener_leds_other b event s _ (Ne.symm h14) (Ne.symm h24) (Ne.symm h34)
  · intro q hq0 hq2 hqp
    rcases profile_cases p h0 h2 with rfl | rfl | rfl <;>
      rcases profile_cases q hq0 hq2 with rfl | rfl | rfl <;>
      simp_all [bt_sel_listener, Board.led_ble, led_on, k_timer_start, led_write_nat,
        Ne.symm h12, Ne.symm h13, Ne.symm h23]
  · intro state c
    simp only [set_led_for_endpoint, clear_state_idem]
  · intro bonded connected c
    constructor
    · rcases profile_cases p h0 h2 with rfl | rfl | rfl <;>
        cases bonded <;> cases connected <;> cases c <;>
        simp [set_led_for_endpoint, bleSelection, led_on, led_off, k_timer_start,
          k_timer_stop, led_write_nat, h01, h02, h03]
    · intro q hq0 hq2 hqp
      rcases profile_cases p h0 h2 with rfl | rfl | rfl <;>
        rcases profile_cases q hq0 hq2 with rfl | rfl | rfl <;>
        cases bonded <;> cases connected <;> cases c <;>
        simp_all [set_led_for_endpoint, bleSelection, Board.led_ble, led_on, led_off,
          k_timer_start, k_timer_stop, led_write_nat, Ne.symm h12, Ne.symm h13, Ne.symm h23]

theorem bt_sel_listener_keeps_siblings_witness :
    blinkingOnce.leds (sampleBoard.led_ble 0) = true ∧
    (((bt_sel_listener sampleBoard (press 1) blinkingOnce).2.leds sampleBoard.led_usb
        = blinkingOnce.leds sampleBoard.led_usb ∧
      (bt_sel_listener sampleBoard (press 1) blinkingOnce).2.leds sampleBoard.led_caps
        = blinkingOnce.leds sampleBoard.led_caps ∧
      ∀ q : Int, 0 ≤ q → q ≤ 2 → q ≠ 1 →
        (bt_sel_listener sampleBoard (press 1) blinkingOnce).2.leds (sampleBoard.led_ble q)
          = blinkingOnce.leds (sampleBoard.led_ble q)) ∧
     (∀ (state : output_status_state) (c : Bool),
       set_led_for_endpoint sampleBoard state c blinkingOnce
         = set_led_for_endpoint sampleBoard state c
             (led_off (led_off (led_off (led_off blinkingOnce sampleBoard.led_usb)
               sampleBoard.led_ble_0) sampleBoard.led_ble_1) sampleBoard.led_ble_2)) ∧
     (∀ (bonded connected c : Bool),
       (set_led_for_endpoint sampleBoard (bleSelection 1 bonded connected) c
         blinkingOnce).leds sampleBoard.led_usb = false ∧
       ∀ q : Int, 0 ≤ q → q ≤ 2 → q ≠ 1 →
         (set_led_for_endpoint sampleBoard (bleSelection 1 bonded connected) c
           blinkingOnce).leds (sampleBoard.led_ble q) = false)) :=
  ⟨by decide,
   bt_sel_listener_keeps_siblings sampleBoard (by decide) (press 1) blinkingOnce 1 rfl rfl
     (by decide) (by decide)⟩

/-! ## The Caps-Lock LED over event sequences -/

theorem caps_led_after_update (b : Board) (hk : b.capsUsageOk) (f : Nat) (s : State) :
    (update_caps_lock_led b f s).2.leds b.led_caps
      = f.testBit (b.HID_USAGE_LED_CAPS_LOCK - 1) := by
  unfold update_caps_lock_led
  rw [capsBit_eq b hk]
  by_cases hx : f.testBit (b.HID_USAGE_LED_CAPS_LOCK - 1) = true
  · rw [if_pos ((and_two_pow_ne_zero f _).2 hx)]
    simp [led_on, led_write_nat, hx]
  · rw [if_neg (fun h => hx ((and_two_pow_ne_zero f _).1 h))]
    simp [led_off, led_write_nat, hx]

theorem caps_ne_target (b : Board) (hb : b.distinct) (s : State) (h : targetsBle b s) :
    (b.led_caps : Int) ≠ s.ble_adv_led_index := by
  obtain ⟨-, -, -, -, -, -, h14, -, h24, h34⟩ := hb
  rcases h with h | h | h | h <;> rw [h] <;> omega

theorem step_caps_unchanged (b : Board) (hb : b.distinct) (s : State) (e : Event)
    (h : targetsBle b s) (hne : ∀ f : Nat, e ≠ Event.hid_indicators_changed f) :
    (step b s e).leds b.led_caps = s.leds b.led_caps := by
  have hcaps := caps_ne_target b hb s h
  obtain ⟨-, -, -, h04, -, -, h14, -, h24, h34⟩ := hb
  cases e with
  | endpoint_changed state c =>
    exact set_led_for_endpoint_leds_other b state c s _ (Ne.symm h04) (Ne.symm h14)
      (Ne.symm h24) (Ne.symm h34) hcaps
  | hid_indicators_changed flags => exact absurd rfl (hne flags)
  | bt_sel_button event =>
    exact bt_sel_listener_leds_other b event s _ (Ne.symm h14) (Ne.symm h24) (Ne.symm h34)
  | mode_change_button event =>
    exact mode_change_listener_leds_other b event s _ (Ne.symm h04)
  | timer_expiry => exact k_timer_expire_leds_other s _ hcaps

theorem run_caps (b : Board) (hb : b.distinct) (hk : b.capsUsageOk) (evs : List Event)
    (s : State) (h : targetsBle b s) :
    (run b s evs).leds b.led_caps
      = match lastIndicatorFlags evs with
        | some f => f.testBit (b.HID_USAGE_LED_CAPS_LOCK - 1)
        | none => s.leds b.led_caps := by
  induction evs generalizing s with
  | nil => rfl
  | cons e rest ih =>
    have hstep := ih (step b s e) (step_targetsBle b s e h)
    have hrun : run b s (e :: rest) = run b (step b s e) rest := rfl
    rw [hrun, hstep]
    cases hlast : lastIndicatorFlags rest with
    | some f => simp [lastIndicatorFlags, hlast]
    | none =>
      cases e with
      | hid_indicators_changed flags =>
        simp [lastIndicatorFlags, hlast, step, led_keylock_listener_cb,
          caps_led_after_update b hk]
      | endpoint_changed state c =>
        simp [lastIndicatorFlags, hlast]
        exact step_caps_unchanged b hb s _ h (by intro f; simp)
      | bt_sel_button event =>
        simp [lastIndicatorFlags, hlast]
        exact step_caps_unchanged b hb s _ h (by intro f; simp)
      | mode_change_button event =>
        simp [lastIndicatorFlags, hlast]
        exact step_caps_unchanged b hb s _ h (by intro f; simp)
      | timer_expiry =>
        simp [lastIndicatorFlags, hlast]
        exact step_caps_unchanged b hb s _ h (by intro f; simp)

/-- C19: for every finite sequence of events (endpoint-changed, profile-select
button, mode-change button, timer expiry, lock-indicators-changed) applied
from the boot state, the Caps-Lock LED at the end shows the Caps Lock bit of
the flags of the last lock-indicators-changed event of the sequence, or is in
its boot state if there is none; and no event other than
lock-indicators-changed, handled in the state reached, changes it. -/
theorem caps_led_follows_last_indicator_event (b : Board) (hb : b.distinct)
    (hk : b.capsUsageOk) (evs : List Event) :
    (run b initState evs).leds b.led_caps
      = (match lastIndicatorFlags evs with
         | some f => f.testBit (b.HID_USAGE_LED_CAPS_LOCK - 1)
         | none => initState.leds b.led_caps) ∧
    ∀ e : Event, (∀ f : Nat, e ≠ Event.hid_indicators_changed f) →
      (step b (run b initState evs) e).leds b.led_caps
        = (run b initState evs).leds b.led_caps :=
  ⟨run_caps b hb hk evs initState (initState_targetsBle b),
   fun e hne => step_caps_unchanged b hb (run b initState evs) e
     (run_targetsBle b evs initState (initState_targetsBle b)) hne⟩

theorem caps_led_follows_last_indicator_event_witness :
    lastIndicatorFlags
      [Event.hid_indicators_changed 2, Event.bt_sel_button (press 0), Event.timer_expiry,
        Event.endpoint_changed (usbSelection 0 false false) false,
        Event.mode_change_button (press 3)] = some 2 ∧
    ((run sampleBoard initState
      [Event.hid_indicators_changed 2, Event.bt_sel_button (press 0), Event.timer_expiry,
        Event.endpoint_changed (usbSelection 0 false false) false,
        Event.mode_change_button (press 3)]).leds sampleBoard.led_caps
      = (match lastIndicatorFlags
          [Event.hid_indicators_changed 2, Event.bt_sel_button (press 0),
            Event.timer_expiry, Event.endpoint_changed (usbSelection 0 false false) false,
            Event.mode_change_button (press 3)] with
         | some f => f.testBit (sampleBoard.HID_USAGE_LED_CAPS_LOCK - 1)
         | none => initState.leds sampleBoard.led_caps) ∧
    ∀ e : Event, (∀ f : Nat, e ≠ Event.hid_indicators_changed f) →
      (step sampleBoard (run sampleBoard initState
        [Event.hid_indicators_changed 2, Event.bt_sel_button (press 0), Event.timer_expiry,
          Event.endpoint_changed (usbSelection 0 false false) false,
          Event.mode_change_button (press 3)]) e).leds sampleBoard.led_caps
        = (run sampleBoard initState
            [Event.hid_indicators_changed 2, Event.bt_sel_button (press 0),
              Event.timer_expiry, Event.endpoint_changed (usbSelection 0 false false) false,
              Event.mode_change_button (press 3)]).leds sampleBoard.led_caps) :=
  ⟨rfl,
   caps_led_follows_last_indicator_event sampleBoard (by decide) (by decide)
     [Event.hid_indicators_changed 2, Event.bt_sel_button (press 0), Event.timer_expiry,
       Event.endpoint_changed (usbSelection 0 false false) false,
       Event.mode_change_button (press 3)]⟩

end LedsTesting
